import Mathlib

/-!
Verification of the finance-calculation core of `realtor2.py`
(mortgage amortization, affordability rules, price capping, input parsing).

All monetary arithmetic is embedded over `ℚ`: the Python source computes
with floats, and the properties under scrutiny are stated over exact
arithmetic.  Python's `int()` truncation toward zero is modelled by
`pyInt`.  Python's exception-raising division and power are additionally
modelled by `Except`-valued variants of the computation, used for the
division-safety claims; the total `ℚ` versions mirror the source line by
line.
-/

namespace Realtor2

/-- Python `int()` applied to a number: truncation toward zero. -/
def pyInt (q : ℚ) : ℤ := if 0 ≤ q then ⌊q⌋ else ⌈q⌉

/-- `mortgage_payment(loan_amount, annual_rate_pct, years)` from
`realtor2.py` lines 59-64: standard fixed-rate amortizing payment. -/
def mortgage_payment (loan_amount annual_rate_pct years : ℚ) : ℚ :=
  let L := loan_amount
  let r_annual := annual_rate_pct / 100
  let n : ℤ := pyInt years * 12
  if n ≤ 0 then 0
  else if r_annual = 0 then L / (n : ℚ)
  else
    let r := r_annual / 12
    (r * L) / (1 - (1 + r) ^ (-n))

/-- `inverse_loan_amount(target_monthly_PI, annual_rate_pct, years)` from
`realtor2.py` lines 66-71: loan principal producing a target payment. -/
def inverse_loan_amount (target_monthly_PI annual_rate_pct years : ℚ) : ℚ :=
  let P := target_monthly_PI
  let r_annual := annual_rate_pct / 100
  let n : ℤ := pyInt years * 12
  if n ≤ 0 then 0
  else if r_annual = 0 then P * (n : ℚ)
  else
    let r := r_annual / 12
    P * (1 - (1 + r) ^ (-n)) / r

/-- `clamp_price(x)` from `realtor2.py` lines 73-75:
`max(0.0, math.floor(x / 1000.0) * 1000.0)`. -/
def clamp_price (x : ℚ) : ℚ := max 0 ((⌊x / 1000⌋ : ℚ) * 1000)

/-! ### Basic facts about `pyInt` and the amortization denominator -/

theorem pyInt_intCast (y : ℤ) : pyInt (y : ℚ) = y := by
  unfold pyInt
  split <;> simp

theorem pyInt_pyInt (q : ℚ) : pyInt ((pyInt q : ℤ) : ℚ) = pyInt q :=
  pyInt_intCast _

/-- `mortgage_payment` only depends on the truncation of its `years`
argument, so pre-truncating (as `App.calculate` does) changes nothing. -/
theorem mortgage_payment_pyInt (L r y : ℚ) :
    mortgage_payment L r ((pyInt y : ℤ) : ℚ) = mortgage_payment L r y := by
  unfold mortgage_payment
  rw [pyInt_pyInt]

theorem inverse_loan_amount_pyInt (P r y : ℚ) :
    inverse_loan_amount P r ((pyInt y : ℤ) : ℚ) = inverse_loan_amount P r y := by
  unfold inverse_loan_amount
  rw [pyInt_pyInt]

/-- The amortization denominator `1 - (1+r)^(-n)` is positive for a
positive monthly rate `r` and a positive term `n`. -/
theorem one_sub_zpow_neg_pos (r : ℚ) (n : ℤ) (hr : 0 < r) (hn : 0 < n) :
    0 < 1 - (1 + r) ^ (-n) := by
  have h1 : (1 : ℚ) < 1 + r := by linarith
  have h2 : (1 : ℚ) < (1 + r) ^ n := one_lt_zpow₀ h1 hn
  have h3 : (1 + r) ^ (-n) = ((1 + r) ^ n)⁻¹ := zpow_neg _ _
  have h4 : ((1 + r) ^ n)⁻¹ < 1 := inv_lt_one_of_one_lt₀ h2
  rw [h3]
  linarith

theorem mortgage_payment_nonneg (L r y : ℚ) (hL : 0 ≤ L) (hr : 0 ≤ r) :
    0 ≤ mortgage_payment L r y := by
  unfold mortgage_payment
  dsimp only
  split
  · exact le_refl 0
  · next hn =>
    have hn' : (0 : ℤ) < pyInt y * 12 := lt_of_not_le hn
    have hnq : (0 : ℚ) < ((pyInt y * 12 : ℤ) : ℚ) := by exact_mod_cast hn'
    split
    · exact div_nonneg hL hnq.le
    · next h0 =>
      have hrpos : 0 < r := by
        rcases lt_or_eq_of_le hr with h | h
        · exact h
        · exact absurd (by rw [← h]; norm_num) h0
      have hr12 : 0 < r / 100 / 12 := by positivity
      have hden := one_sub_zpow_neg_pos (r / 100 / 12) (pyInt y * 12) hr12 hn'
      exact div_nonneg (by positivity) hden.le

/-! ### The calculation pipeline (`App.calculate`, lines 287-340) -/

/-- The numeric inputs consumed by `App.calculate` (the record returned
by `App.get_inputs`, minus the address string, which the arithmetic
never uses). -/
structure Inputs where
  ask : ℚ
  rent : ℚ
  down_pct : ℚ
  rate : ℚ
  years : ℚ
  taxes_y : ℚ
  ins_y : ℚ
  hoa_m : ℚ
  vac_pct : ℚ
  maint_pct : ℚ
  comm_pct : ℚ
  close_pct : ℚ
  payoff : ℚ
  optimistic : ℚ
  piti_share_pct : ℚ
  other_debt_m : ℚ

/-- All input fields non-negative (the claims' input-domain hypothesis). -/
def Inputs.Nonneg (X : Inputs) : Prop :=
  0 ≤ X.ask ∧ 0 ≤ X.rent ∧ 0 ≤ X.down_pct ∧ 0 ≤ X.rate ∧ 0 ≤ X.years ∧
  0 ≤ X.taxes_y ∧ 0 ≤ X.ins_y ∧ 0 ≤ X.hoa_m ∧ 0 ≤ X.vac_pct ∧
  0 ≤ X.maint_pct ∧ 0 ≤ X.comm_pct ∧ 0 ≤ X.close_pct ∧ 0 ≤ X.payoff ∧
  0 ≤ X.optimistic ∧ 0 ≤ X.piti_share_pct ∧ 0 ≤ X.other_debt_m

/-- The derived metrics computed by `App.calculate` lines 298-340.  The
coverage ratio is `Option`-valued: `none` models the `float('inf')`
sentinel used by the source when the principal+interest payment is not
positive. -/
structure Metrics where
  down : ℚ
  loan : ℚ
  principal_interest : ℚ
  total_housing : ℚ
  vacancy : ℚ
  maintenance : ℚ
  cash_flow : ℚ
  monthly_income_after_expenses : ℚ
  coverage_ratio : Option ℚ
  income_needed_28 : ℚ
  income_needed_28_y : ℚ
  income_needed_36 : ℚ
  income_needed_36_y : ℚ
  stress_rate : ℚ
  pi_stress : ℚ
  total_housing_stress : ℚ
  income_needed_ca_housing : ℚ
  income_needed_ca_housing_y : ℚ
  income_needed_ca_debts : ℚ
  income_needed_ca_debts_y : ℚ
  ca_binding_y : ℚ
  net_to_seller : ℚ
  total_housing_cap : ℚ
  principal_interest_cap : ℚ
  loan_cap : ℚ
  price_cap_cf0 : ℚ
  total_housing_cap2 : ℚ
  principal_interest_cap2 : ℚ
  loan_cap2 : ℚ
  price_cap_pitishare : ℚ

/-- The metric computation of `App.calculate` (`realtor2.py` lines
298-340), line by line.  `years = int(X["years"])` is `pyInt`;
percentage fields are divided by 100 exactly where the source does so. -/
def calculate (X : Inputs) : Metrics :=
  let years : ℤ := pyInt X.years
  let vac_pct := X.vac_pct / 100
  let maint_pct := X.maint_pct / 100
  let comm_pct := X.comm_pct / 100
  let close_pct := X.close_pct / 100
  let piti_share_pct := X.piti_share_pct / 100
  let down := X.ask * (X.down_pct / 100)
  let loan := max 0 (X.ask - down)
  let principal_interest := mortgage_payment loan X.rate ((years : ℤ) : ℚ)
  let total_housing := principal_interest + X.taxes_y / 12 + X.ins_y / 12 + X.hoa_m
  let vacancy := X.rent * vac_pct
  let maintenance := X.rent * maint_pct
  let cash_flow := X.rent - total_housing - vacancy - maintenance
  let monthly_income_after_expenses :=
    X.rent - vacancy - X.taxes_y / 12 - X.ins_y / 12 - X.hoa_m - maintenance
  let coverage_ratio : Option ℚ :=
    if 0 < principal_interest then some (monthly_income_after_expenses / principal_interest)
    else none
  let income_needed_28 := if 0 < total_housing then total_housing / 0.28 else 0
  let income_needed_28_y := income_needed_28 * 12
  let income_needed_36 :=
    if 0 < total_housing then (total_housing + X.other_debt_m) / 0.36 else 0
  let income_needed_36_y := income_needed_36 * 12
  let stress_rate := max (X.rate + 2) 5.25
  let pi_stress := mortgage_payment loan stress_rate ((years : ℤ) : ℚ)
  let total_housing_stress := pi_stress + X.taxes_y / 12 + X.ins_y / 12 + 0.5 * X.hoa_m
  let income_needed_ca_housing :=
    if 0 < total_housing_stress then total_housing_stress / 0.39 else 0
  let income_needed_ca_housing_y := income_needed_ca_housing * 12
  let income_needed_ca_debts :=
    if 0 < total_housing_stress then (total_housing_stress + X.other_debt_m) / 0.44 else 0
  let income_needed_ca_debts_y := income_needed_ca_debts * 12
  let ca_binding_y := max income_needed_ca_housing_y income_needed_ca_debts_y
  let gross := X.optimistic
  let fees := gross * comm_pct
  let other := gross * close_pct
  let net_to_seller := gross - fees - other - X.payoff
  let total_housing_cap := max 0 (X.rent * (1 - X.vac_pct / 100 - X.maint_pct / 100))
  let principal_interest_cap :=
    max 0 (total_housing_cap - X.taxes_y / 12 - X.ins_y / 12 - X.hoa_m)
  let loan_cap := inverse_loan_amount principal_interest_cap X.rate ((years : ℤ) : ℚ)
  let price_cap_cf0 :=
    clamp_price
      (if 0 < 1 - X.down_pct / 100 then loan_cap / (1 - X.down_pct / 100) else 0)
  let total_housing_cap2 := X.rent * piti_share_pct
  let principal_interest_cap2 :=
    max 0 (total_housing_cap2 - X.taxes_y / 12 - X.ins_y / 12 - X.hoa_m)
  let loan_cap2 := inverse_loan_amount principal_interest_cap2 X.rate ((years : ℤ) : ℚ)
  let price_cap_pitishare :=
    clamp_price
      (if 0 < 1 - X.down_pct / 100 then loan_cap2 / (1 - X.down_pct / 100) else 0)
  { down := down
    loan := loan
    principal_interest := principal_interest
    total_housing := total_housing
    vacancy := vacancy
    maintenance := maintenance
    cash_flow := cash_flow
    monthly_income_after_expenses := monthly_income_after_expenses
    coverage_ratio := coverage_ratio
    income_needed_28 := income_needed_28
    income_needed_28_y := income_needed_28_y
    income_needed_36 := income_needed_36
    income_needed_36_y := income_needed_36_y
    stress_rate := stress_rate
    pi_stress := pi_stress
    total_housing_stress := total_housing_stress
    income_needed_ca_housing := income_needed_ca_housing
    income_needed_ca_housing_y := income_needed_ca_housing_y
    income_needed_ca_debts := income_needed_ca_debts
    income_needed_ca_debts_y := income_needed_ca_debts_y
    ca_binding_y := ca_binding_y
    net_to_seller := net_to_seller
    total_housing_cap := total_housing_cap
    principal_interest_cap := principal_interest_cap
    loan_cap := loan_cap
    price_cap_cf0 := price_cap_cf0
    total_housing_cap2 := total_housing_cap2
    principal_interest_cap2 := principal_interest_cap2
    loan_cap2 := loan_cap2
    price_cap_pitishare := price_cap_pitishare }

/-- The documented default inputs (spec §6): asking price 500000, rent
3000, down 20%, rate 7%, term 30 years, tax 3600/yr, insurance 1200/yr,
association fee 0/mo, vacancy 10%, maintenance 8%, commission 6%, other
closing 1%, payoff 0, comparison price = asking price, target ratio
80%, other debts 0. -/
def defaultInputs : Inputs :=
  ⟨500000, 3000, 20, 7, 30, 3600, 1200, 0, 10, 8, 6, 1, 0, 500000, 80, 0⟩

/-- A degenerate but admissible input: 100% down payment, zero rate and
zero rent, which drives the principal+interest payment, the total
housing cost and the price-cap denominator all to `0`. -/
def degenerateInputs : Inputs :=
  ⟨100000, 0, 100, 0, 30, 0, 0, 0, 0, 0, 0, 0, 0, 0, 0, 0⟩

/-! ### Input parsing (`parse_money`, `App.get_inputs`) -/

/-- Python `str.strip()`: remove leading and trailing whitespace. -/
def pyStrip (s : String) : String :=
  String.mk
    (((s.data.dropWhile Char.isWhitespace).reverse.dropWhile Char.isWhitespace).reverse)

/-- The `re.sub(r'[,$% ]', '', s)` step of `parse_money`: drop every
comma, dollar sign, percent sign and space. -/
def removeMoneyChars (s : String) : String :=
  String.mk (s.data.filter fun c => !(c == ',' || c == '$' || c == '%' || c == ' '))

/-- Digit run to a natural number, most significant first. -/
def digitsToNat (l : List Char) : ℕ :=
  l.foldl (fun a c => 10 * a + (c.toNat - 48)) 0

/-- Modelled from the spec and the Python builtin `float`: the optional
exponent tail `[(e|E) [sign] digits]` of a float literal, applied to an
already-parsed mantissa.  Returns `none` on trailing garbage. -/
def pyFloatExp (m : ℚ) (l : List Char) : Option ℚ :=
  match l with
  | [] => some m
  | e :: t =>
    if e = 'e' ∨ e = 'E' then
      let p : ℤ × List Char :=
        match t with
        | '+' :: u => (1, u)
        | '-' :: u => (-1, u)
        | u => (1, u)
      let ed := p.2.takeWhile Char.isDigit
      let rest := p.2.dropWhile Char.isDigit
      if ed.isEmpty ∨ ¬ rest.isEmpty then none
      else some (m * (10 : ℚ) ^ (p.1 * (digitsToNat ed : ℤ)))
    else none

/-- Modelled from the Python builtin `float(s)`: parse
`[sign] (digits [. digits] | . digits) [(e|E) [sign] digits]` exactly,
`none` on anything else (the `ValueError` case).  Special spellings such
as `inf`/`nan` are outside this model. -/
def pyFloat? (s : String) : Option ℚ :=
  let q : ℚ × List Char :=
    match s.data with
    | '+' :: t => (1, t)
    | '-' :: t => (-1, t)
    | t => (1, t)
  let ip := q.2.takeWhile Char.isDigit
  let r1 := q.2.dropWhile Char.isDigit
  let f : List Char × List Char :=
    match r1 with
    | '.' :: t => (t.takeWhile Char.isDigit, t.dropWhile Char.isDigit)
    | t => ([], t)
  if ip.isEmpty ∧ f.1.isEmpty then none
  else
    pyFloatExp
      (q.1 * ((digitsToNat ip : ℚ) + (digitsToNat f.1 : ℚ) / (10 : ℚ) ^ f.1.length))
      f.2

/-- `parse_money(s, default)` from `realtor2.py` lines 39-45: `None` or
blank gives the default; otherwise strip whitespace, drop money
punctuation, and fall back to the default when `float()` fails.  Total
by construction, mirroring the source's `try/except`. -/
def parse_money (s : Option String) (default : ℚ) : ℚ :=
  match s with
  | none => default
  | some t =>
    let t1 := pyStrip t
    if t1 = "" then default
    else
      match pyFloat? (removeMoneyChars t1) with
      | some v => v
      | none => default

/-- The raw entry texts consumed by `App.get_inputs` (empty string =
field left blank / placeholder showing). -/
structure FieldTexts where
  ask : String
  rent : String
  down : String
  rate : String
  years : String
  taxes : String
  ins : String
  hoa : String
  vac : String
  maint : String
  comm : String
  closepct : String
  payoff : String
  optimistic : String
  piti_share : String
  other_debt : String

/-- `App.get_inputs` (`realtor2.py` lines 271-285): parse every field
with its documented default; the comparison price defaults to the parsed
asking price. -/
def get_inputs (T : FieldTexts) : Inputs :=
  let ask := parse_money (some T.ask) 500000
  let rent := parse_money (some T.rent) 3000
  let down_pct := parse_money (some T.down) 20
  let rate := parse_money (some T.rate) 7
  let years := parse_money (some T.years) 30
  let taxes_y := parse_money (some T.taxes) 3600
  let ins_y := parse_money (some T.ins) 1200
  let hoa_m := parse_money (some T.hoa) 0
  let vac_pct := parse_money (some T.vac) 10
  let maint_pct := parse_money (some T.maint) 8
  let comm_pct := parse_money (some T.comm) 6
  let close_pct := parse_money (some T.closepct) 1
  let payoff := parse_money (some T.payoff) 0
  let optimistic := parse_money (some T.optimistic) ask
  let piti_share_pct := parse_money (some T.piti_share) 80
  let other_debt_m := parse_money (some T.other_debt) 0
  ⟨ask, rent, down_pct, rate, years, taxes_y, ins_y, hoa_m, vac_pct, maint_pct,
   comm_pct, close_pct, payoff, optimistic, piti_share_pct, other_debt_m⟩

/-- A field text the user left blank or filled with text `float()`
rejects. -/
def BlankOrNonNumeric (s : String) : Prop :=
  pyStrip s = "" ∨ pyFloat? (removeMoneyChars (pyStrip s)) = none

/-- Every field is blank or non-numeric. -/
def FieldTexts.AllBlankOrNonNumeric (T : FieldTexts) : Prop :=
  BlankOrNonNumeric T.ask ∧ BlankOrNonNumeric T.rent ∧
  BlankOrNonNumeric T.down ∧ BlankOrNonNumeric T.rate ∧
  BlankOrNonNumeric T.years ∧ BlankOrNonNumeric T.taxes ∧
  BlankOrNonNumeric T.ins ∧ BlankOrNonNumeric T.hoa ∧
  BlankOrNonNumeric T.vac ∧ BlankOrNonNumeric T.maint ∧
  BlankOrNonNumeric T.comm ∧ BlankOrNonNumeric T.closepct ∧
  BlankOrNonNumeric T.payoff ∧ BlankOrNonNumeric T.optimistic ∧
  BlankOrNonNumeric T.piti_share ∧ BlankOrNonNumeric T.other_debt

/-! ### Exception-aware model of the same computation

Python raises `ZeroDivisionError` on `a / 0` and on `0.0 ** k` for
`k < 0`.  The following `Except`-valued variants perform exactly the
divisions and powers the source performs, failing where Python would
raise, so that "the computation never performs a division by zero" is a
provable statement rather than an artifact of total division on `ℚ`. -/

/-- Division as Python performs it: error on a zero divisor. -/
def pdiv (a b : ℚ) : Except String ℚ :=
  if b = 0 then Except.error "ZeroDivisionError" else Except.ok (a / b)

/-- Power as Python performs it on numbers: error on `0 ** k`, `k < 0`. -/
def ppow (b : ℚ) (k : ℤ) : Except String ℚ :=
  if b = 0 ∧ k < 0 then Except.error "ZeroDivisionError" else Except.ok (b ^ k)

/-- `mortgage_payment` with Python's partial division and power. -/
def mortgage_paymentE (loan_amount annual_rate_pct years : ℚ) : Except String ℚ := do
  let L := loan_amount
  let r_annual ← pdiv annual_rate_pct 100
  let n : ℤ := pyInt years * 12
  if n ≤ 0 then
    return 0
  else if r_annual = 0 then
    pdiv L ((n : ℤ) : ℚ)
  else
    let r ← pdiv r_annual 12
    let p ← ppow (1 + r) (-n)
    pdiv (r * L) (1 - p)

/-- `inverse_loan_amount` with Python's partial division and power. -/
def inverse_loan_amountE (target_monthly_PI annual_rate_pct years : ℚ) :
    Except String ℚ := do
  let P := target_monthly_PI
  let r_annual ← pdiv annual_rate_pct 100
  let n : ℤ := pyInt years * 12
  if n ≤ 0 then
    return 0
  else if r_annual = 0 then
    return P * ((n : ℤ) : ℚ)
  else
    let r ← pdiv r_annual 12
    let p ← ppow (1 + r) (-n)
    pdiv (P * (1 - p)) r

/-- The source's coverage-ratio conditional
`(m / pi) if pi > 0 else float('inf')` with partial division; `none`
models the infinite sentinel. -/
def coverageE (a b : ℚ) : Except String (Option ℚ) :=
  if 0 < b then do
    let c ← pdiv a b
    pure (some c)
  else pure none

/-- The source's qualifying-income conditional `(a / b) if 0 < t else 0`
with partial division (`b` is one of the policy constants). -/
def ruleDivE (t a b : ℚ) : Except String ℚ :=
  if 0 < t then pdiv a b else pure 0

/-- The source's price-cap conditional `(a / b) if b > 0 else 0` with
partial division. -/
def posDivE (a b : ℚ) : Except String ℚ :=
  if 0 < b then pdiv a b else pure 0

/-- The metric computation of `App.calculate` with Python's partial
division and power at every division site of lines 298-340 (constant
divisors such as `100`, `12`, `0.28`, `0.36`, `0.39`, `0.44` included),
in the source's evaluation order. -/
def calculateE (X : Inputs) : Except String Metrics := do
  let years : ℤ := pyInt X.years
  let vac_pct ← pdiv X.vac_pct 100
  let maint_pct ← pdiv X.maint_pct 100
  let comm_pct ← pdiv X.comm_pct 100
  let close_pct ← pdiv X.close_pct 100
  let piti_share_pct ← pdiv X.piti_share_pct 100
  let down_frac ← pdiv X.down_pct 100
  let down := X.ask * down_frac
  let loan := max 0 (X.ask - down)
  let principal_interest ← mortgage_paymentE loan X.rate ((years : ℤ) : ℚ)
  let t12 ← pdiv X.taxes_y 12
  let i12 ← pdiv X.ins_y 12
  let total_housing := principal_interest + t12 + i12 + X.hoa_m
  let vacancy := X.rent * vac_pct
  let maintenance := X.rent * maint_pct
  let cash_flow := X.rent - total_housing - vacancy - maintenance
  let monthly_income_after_expenses :=
    X.rent - vacancy - t12 - i12 - X.hoa_m - maintenance
  let coverage_ratio : Option ℚ ←
    coverageE monthly_income_after_expenses principal_interest
  let income_needed_28 ← ruleDivE total_housing total_housing 0.28
  let income_needed_28_y := income_needed_28 * 12
  let income_needed_36 ←
    ruleDivE total_housing (total_housing + X.other_debt_m) 0.36
  let income_needed_36_y := income_needed_36 * 12
  let stress_rate := max (X.rate + 2) 5.25
  let pi_stress ← mortgage_paymentE loan stress_rate ((years : ℤ) : ℚ)
  let total_housing_stress := pi_stress + t12 + i12 + 0.5 * X.hoa_m
  let income_needed_ca_housing ←
    ruleDivE total_housing_stress total_housing_stress 0.39
  let income_needed_ca_housing_y := income_needed_ca_housing * 12
  let income_needed_ca_debts ←
    ruleDivE total_housing_stress (total_housing_stress + X.other_debt_m) 0.44
  let income_needed_ca_debts_y := income_needed_ca_debts * 12
  let ca_binding_y := max income_needed_ca_housing_y income_needed_ca_debts_y
  let gross := X.optimistic
  let fees := gross * comm_pct
  let other := gross * close_pct
  let net_to_seller := gross - fees - other - X.payoff
  let vac2 ← pdiv X.vac_pct 100
  let maint2 ← pdiv X.maint_pct 100
  let total_housing_cap := max 0 (X.rent * (1 - vac2 - maint2))
  let principal_interest_cap :=
    max 0 (total_housing_cap - t12 - i12 - X.hoa_m)
  let loan_cap ← inverse_loan_amountE principal_interest_cap X.rate ((years : ℤ) : ℚ)
  let dfrac2 ← pdiv X.down_pct 100
  let price_cap_cf0_raw ← posDivE loan_cap (1 - dfrac2)
  let price_cap_cf0 := clamp_price price_cap_cf0_raw
  let total_housing_cap2 := X.rent * piti_share_pct
  let principal_interest_cap2 :=
    max 0 (total_housing_cap2 - t12 - i12 - X.hoa_m)
  let loan_cap2 ← inverse_loan_amountE principal_interest_cap2 X.rate ((years : ℤ) : ℚ)
  let price_cap_pitishare_raw ← posDivE loan_cap2 (1 - dfrac2)
  let price_cap_pitishare := clamp_price price_cap_pitishare_raw
  pure
    { down := down
      loan := loan
      principal_interest := principal_interest
      total_housing := total_housing
      vacancy := vacancy
      maintenance := maintenance
      cash_flow := cash_flow
      monthly_income_after_expenses := monthly_income_after_expenses
      coverage_ratio := coverage_ratio
      income_needed_28 := income_needed_28
      income_needed_28_y := income_needed_28_y
      income_needed_36 := income_needed_36
      income_needed_36_y := income_needed_36_y
      stress_rate := stress_rate
      pi_stress := pi_stress
      total_housing_stress := total_housing_stress
      income_needed_ca_housing := income_needed_ca_housing
      income_needed_ca_housing_y := income_needed_ca_housing_y
      income_needed_ca_debts := income_needed_ca_debts
      income_needed_ca_debts_y := income_needed_ca_debts_y
      ca_binding_y := ca_binding_y
      net_to_seller := net_to_seller
      total_housing_cap := total_housing_cap
      principal_interest_cap := principal_interest_cap
      loan_cap := loan_cap
      price_cap_cf0 := price_cap_cf0
      total_housing_cap2 := total_housing_cap2
      principal_interest_cap2 := principal_interest_cap2
      loan_cap2 := loan_cap2
      price_cap_pitishare := price_cap_pitishare }

/-- The principal+interest payment computed by `calculate` is
non-negative whenever the rate is non-negative (the loan amount is
clamped to be non-negative by the source itself). -/
theorem calculate_pi_nonneg (X : Inputs) (hr : 0 ≤ X.rate) :
    0 ≤ (calculate X).principal_interest := by
  simp only [calculate]
  exact mortgage_payment_nonneg _ _ _ (le_max_left 0 _) hr

/-! ### C1: round-trip inversion -/

/-- C1.  Round-trip inversion: for every target payment `P ≥ 0`, annual
rate percentage `r ≥ 0` and whole-year term `y > 0`,
`mortgage_payment (inverse_loan_amount P r y) r y = P` exactly over exact
arithmetic. -/
theorem mortgage_payment_inverse_loan_amount (P r : ℚ) (y : ℤ)
    (hP : 0 ≤ P) (hr : 0 ≤ r) (hy : 0 < y) :
    mortgage_payment (inverse_loan_amount P r (y : ℚ)) r (y : ℚ) = P := by
  unfold mortgage_payment inverse_loan_amount
  dsimp only
  rw [pyInt_intCast]
  have hn : ¬ (y * 12 ≤ 0) := by omega
  have hn' : (0 : ℤ) < y * 12 := by omega
  have hnq : (0 : ℚ) < ((y * 12 : ℤ) : ℚ) := by exact_mod_cast hn'
  rw [if_neg hn, if_neg hn]
  by_cases h0 : r / 100 = 0
  · rw [if_pos h0, if_pos h0]
    field_simp
  · rw [if_neg h0, if_neg h0]
    have hrpos : 0 < r := by
      rcases lt_or_eq_of_le hr with h | h
      · exact h
      · exact absurd (by rw [← h]; norm_num) h0
    have hr12 : 0 < r / 100 / 12 := by positivity
    have hden := one_sub_zpow_neg_pos (r / 100 / 12) (y * 12) hr12 hn'
    rw [mul_comm (r / 100 / 12), div_mul_cancel₀ _ hr12.ne',
      mul_div_cancel_right₀ _ hden.ne']

/-- C1 witness at `P = 1000`, `r = 7`, `y = 30`. -/
theorem mortgage_payment_inverse_loan_amount_witness :
    mortgage_payment (inverse_loan_amount 1000 7 ((30 : ℤ) : ℚ)) 7 ((30 : ℤ) : ℚ) = 1000 :=
  mortgage_payment_inverse_loan_amount 1000 7 30 (by norm_num) (by norm_num) (by norm_num)

/-! ### C2: piecewise characterization of `mortgage_payment` -/

/-- C2.  `mortgage_payment` equals its piecewise reference definition:
for every loan amount `L ≥ 0`, rate `r ≥ 0` and whole-year term `y`, the
result is `0` when `y ≤ 0`; `L / (y*12)` when `r = 0` and `y > 0`; and
`(monthlyRate * L) / (1 - (1 + monthlyRate)^(-(y*12)))` with
`monthlyRate = r/100/12` otherwise. -/
theorem mortgage_payment_piecewise (L r : ℚ) (y : ℤ) (hL : 0 ≤ L) (hr : 0 ≤ r) :
    (y ≤ 0 → mortgage_payment L r (y : ℚ) = 0) ∧
    (r = 0 → 0 < y → mortgage_payment L r (y : ℚ) = L / ((y : ℚ) * 12)) ∧
    (r ≠ 0 → 0 < y →
      mortgage_payment L r (y : ℚ) =
        (r / 100 / 12 * L) / (1 - (1 + r / 100 / 12) ^ (-(y * 12)))) := by
  unfold mortgage_payment
  rw [pyInt_intCast]
  refine ⟨fun hy => ?_, fun hr0 hy => ?_, fun hr0 hy => ?_⟩
  · rw [if_pos (by omega)]
  · rw [if_neg (by omega), if_pos (by rw [hr0]; norm_num)]
    push_cast
    ring_nf
  · have h0 : r / 100 ≠ 0 := by
      intro h
      exact hr0 (by field_simp at h; exact h)
    rw [if_neg (by omega), if_neg h0]

/-- C2 witness: the three branches at `L = 360000`, `y = 30` (rate `0`
and rate `7`), and at `y = 0`. -/
theorem mortgage_payment_piecewise_witness :
    mortgage_payment 360000 0 ((0 : ℤ) : ℚ) = 0 ∧
    mortgage_payment 360000 0 ((30 : ℤ) : ℚ) = 360000 / (((30 : ℤ) : ℚ) * 12) ∧
    mortgage_payment 360000 7 ((30 : ℤ) : ℚ) =
      (7 / 100 / 12 * 360000) / (1 - (1 + 7 / 100 / 12) ^ (-((30 : ℤ) * 12))) :=
  ⟨(mortgage_payment_piecewise 360000 0 0 (by norm_num) le_rfl).1 le_rfl,
   (mortgage_payment_piecewise 360000 0 30 (by norm_num) le_rfl).2.1 rfl (by norm_num),
   (mortgage_payment_piecewise 360000 7 30 (by norm_num) (by norm_num)).2.2
     (by norm_num) (by norm_num)⟩

/-! ### C4: `clamp_price` rounding policy -/

/-- C4 counterexample: the claim asserts the result is always `≤` the
unrounded input, but for the negative input `-1` the function returns
`0`, which is not `≤ -1`. -/
theorem clamp_price_counterexample :
    clamp_price (-1) = 0 ∧ ¬ clamp_price (-1) ≤ -1 := by
  constructor
  · unfold clamp_price
    norm_num
  · unfold clamp_price
    norm_num

/-- C4 (amended).  `clamp_price` is monotonic non-decreasing, always
returns an integer multiple of 1000, returns a value `≤` the unrounded
input for non-negative input (floor semantics), and returns `0` for
negative input. -/
theorem clamp_price_amended (x y : ℚ) :
    (x ≤ y → clamp_price x ≤ clamp_price y) ∧
    (∃ k : ℤ, clamp_price x = (k : ℚ) * 1000) ∧
    (0 ≤ x → clamp_price x ≤ x) ∧
    (x < 0 → clamp_price x = 0) := by
  unfold clamp_price
  refine ⟨fun hxy => ?_, ⟨max 0 ⌊x / 1000⌋, ?_⟩, fun hx => ?_, fun hx => ?_⟩
  · have h1 : ⌊x / 1000⌋ ≤ ⌊y / 1000⌋ :=
      Int.floor_le_floor (by linarith)
    have h2 : ((⌊x / 1000⌋ : ℚ)) * 1000 ≤ ((⌊y / 1000⌋ : ℚ)) * 1000 := by
      have : ((⌊x / 1000⌋ : ℚ)) ≤ ((⌊y / 1000⌋ : ℚ)) := by exact_mod_cast h1
      linarith
    exact max_le_max le_rfl h2
  · push_cast
    rw [max_mul_of_nonneg _ _ (by norm_num : (0 : ℚ) ≤ 1000)]
    norm_num
  · refine max_le hx ?_
    have h1 : ((⌊x / 1000⌋ : ℚ)) ≤ x / 1000 := Int.floor_le _
    linarith
  · have h1 : ⌊x / 1000⌋ ≤ 0 := Int.floor_nonpos (by linarith)
    have h2 : ((⌊x / 1000⌋ : ℚ)) * 1000 ≤ 0 := by
      have : ((⌊x / 1000⌋ : ℚ)) ≤ 0 := by exact_mod_cast h1
      linarith
    exact max_eq_left h2

/-- C4 witness: monotonicity and the floor bound at `2500 ≤ 3000`, the
multiple-of-1000 shape at `2500`, and the negative clamp at `-5`. -/
theorem clamp_price_amended_witness :
    clamp_price 2500 ≤ clamp_price 3000 ∧
    (∃ k : ℤ, clamp_price 2500 = (k : ℚ) * 1000) ∧
    clamp_price 2500 ≤ 2500 ∧
    clamp_price (-5) = 0 :=
  ⟨(clamp_price_amended 2500 3000).1 (by norm_num),
   (clamp_price_amended 2500 3000).2.1,
   (clamp_price_amended 2500 3000).2.2.1 (by norm_num),
   (clamp_price_amended (-5) 0).2.2.2 (by norm_num)⟩

/-! ### C3: coverage-ratio sentinel -/

/-- The coverage ratio computed by `calculate`, expressed through the
guard the source uses (`if principal_interest > 0`). -/
theorem calculate_coverage_ratio_def (X : Inputs) :
    (calculate X).coverage_ratio =
      if 0 < (calculate X).principal_interest then
        some ((calculate X).monthly_income_after_expenses /
          (calculate X).principal_interest)
      else none := by
  simp only [calculate]

/-- C3.  For every input record with non-negative fields, the coverage
ratio is the "infinite" sentinel (modelled as `none`) exactly when the
monthly principal+interest payment is `0`; otherwise it equals the
income after operating expenses divided by principal+interest. -/
theorem coverage_ratio_sentinel (X : Inputs) (h : X.Nonneg) :
    ((calculate X).coverage_ratio = none ↔ (calculate X).principal_interest = 0) ∧
    ((calculate X).principal_interest ≠ 0 →
      (calculate X).coverage_ratio =
        some ((calculate X).monthly_income_after_expenses /
          (calculate X).principal_interest)) := by
  have hpi := calculate_pi_nonneg X h.2.2.2.1
  rw [calculate_coverage_ratio_def]
  rcases eq_or_lt_of_le hpi with hp | hp
  · rw [if_neg (by rw [← hp]; exact lt_irrefl 0)]
    exact ⟨⟨fun _ => hp.symm, fun _ => rfl⟩, fun hne => absurd hp.symm hne⟩
  · rw [if_pos hp]
    exact ⟨⟨fun hs => (Option.some_ne_none _ hs).elim, fun h0 => absurd h0 hp.ne'⟩,
      fun _ => rfl⟩

/-- C3 witness at the default inputs. -/
theorem coverage_ratio_sentinel_witness :
    ((calculate defaultInputs).coverage_ratio = none ↔
      (calculate defaultInputs).principal_interest = 0) ∧
    ((calculate defaultInputs).principal_interest ≠ 0 →
      (calculate defaultInputs).coverage_ratio =
        some ((calculate defaultInputs).monthly_income_after_expenses /
          (calculate defaultInputs).principal_interest)) :=
  coverage_ratio_sentinel defaultInputs
    (by norm_num [defaultInputs, Inputs.Nonneg])

/-! ### C5: Canada stress test -/

/-- C5.  For every input record, the stress rate is
`max (rate + 2) 5.25`, the stressed principal+interest is
`mortgage_payment loan stressRate years`, and the stressed housing cost
counts the monthly association fee at half weight; in particular
`rate = 5` gives stress rate `7` and `rate = 2` gives stress rate
`5.25`. -/
theorem canada_stress_test (X : Inputs) :
    (calculate X).stress_rate = max (X.rate + 2) 5.25 ∧
    (calculate X).pi_stress =
      mortgage_payment (calculate X).loan ((calculate X).stress_rate) X.years ∧
    (calculate X).total_housing_stress =
      (calculate X).pi_stress + X.taxes_y / 12 + X.ins_y / 12 + 0.5 * X.hoa_m ∧
    (calculate { X with rate := 5 }).stress_rate = 7 ∧
    (calculate { X with rate := 2 }).stress_rate = 5.25 := by
  refine ⟨?_, ?_, ?_, ?_, ?_⟩
  · simp only [calculate]
  · simp only [calculate]
    rw [mortgage_payment_pyInt]
  · simp only [calculate]
  · simp only [calculate]
    rw [show (5 : ℚ) + 2 = 7 by norm_num, max_eq_left (by norm_num : (5.25 : ℚ) ≤ 7)]
  · simp only [calculate]
    rw [max_eq_right (by norm_num : (2 : ℚ) + 2 ≤ 5.25)]

/-! ### C6: derived loan amount -/

/-- C6.  For every input record, the derived loan amount equals
`max 0 (price - price * downPct / 100)` and is never negative, including
when the down-payment percentage exceeds 100. -/
theorem loan_amount_clamped (X : Inputs) :
    (calculate X).loan = max 0 (X.ask - X.ask * (X.down_pct / 100)) ∧
    0 ≤ (calculate X).loan := by
  constructor
  · simp only [calculate]
  · simp only [calculate]
    exact le_max_left 0 _

/-! ### C7: fixed scenario -/

/-- C7.  The fixed scenario (price 500000, down 20%, rate 7%, years 30,
tax 3600/yr, insurance 1200/yr, association fee 0, rent 3000, vacancy
10%, maintenance 8%) yields loan amount 400000, principal+interest
≈ 2661.21, total monthly housing ≈ 3061.21, and monthly cash flow
≈ -601.21 = 3000 - totalHousing - 300 - 240. -/
theorem fixed_scenario :
    (calculate defaultInputs).loan = 400000 ∧
    |(calculate defaultInputs).principal_interest - 2661.21| < 0.005 ∧
    |(calculate defaultInputs).total_housing - 3061.21| < 0.005 ∧
    |(calculate defaultInputs).cash_flow - (-601.21)| < 0.005 ∧
    (calculate defaultInputs).cash_flow =
      3000 - (calculate defaultInputs).total_housing - 300 - 240 := by
  have e1 : max (0 : ℚ) (500000 - 500000 * (20 / 100)) = 400000 := by
    rw [show (500000 : ℚ) - 500000 * (20 / 100) = 400000 by norm_num,
      max_eq_right (by norm_num : (0 : ℚ) ≤ 400000)]
  refine ⟨?_, ?_, ?_, ?_, ?_⟩
  · simp only [calculate, defaultInputs]
    exact e1
  · simp only [calculate, defaultInputs]
    rw [e1, abs_lt]
    norm_num [mortgage_payment, pyInt]
  · simp only [calculate, defaultInputs]
    rw [e1, abs_lt]
    norm_num [mortgage_payment, pyInt]
  · simp only [calculate, defaultInputs]
    rw [e1, abs_lt]
    norm_num [mortgage_payment, pyInt]
  · simp only [calculate, defaultInputs]
    norm_num

/-! ### C8: no division-by-zero fault -/

theorem ok_bind {α β : Type} (a : α) (f : α → Except String β) :
    (Except.ok a >>= f) = f a := rfl

theorem pure_eq_ok {α : Type} (a : α) : (pure a : Except String α) = Except.ok a := rfl

theorem pdiv_ok (a b : ℚ) (hb : b ≠ 0) : pdiv a b = Except.ok (a / b) :=
  if_neg hb

theorem ppow_ok (b : ℚ) (k : ℤ) (hb : b ≠ 0) : ppow b k = Except.ok (b ^ k) :=
  if_neg (fun h => hb h.1)

/-- For a non-negative rate, the exception-aware `mortgage_paymentE`
succeeds with exactly the value of the total model. -/
theorem mortgage_paymentE_ok (L r y : ℚ) (hr : 0 ≤ r) :
    mortgage_paymentE L r y = Except.ok (mortgage_payment L r y) := by
  unfold mortgage_paymentE mortgage_payment
  rw [pdiv_ok _ _ (by norm_num : (100 : ℚ) ≠ 0)]
  rw [ok_bind]
  dsimp only
  split_ifs with h1 h2
  · rfl
  · have hn' : (0 : ℤ) < pyInt y * 12 := lt_of_not_le h1
    have hnq : ((pyInt y * 12 : ℤ) : ℚ) ≠ 0 := by
      exact_mod_cast hn'.ne'
    rw [pdiv_ok _ _ hnq]
  · have hn' : (0 : ℤ) < pyInt y * 12 := lt_of_not_le h1
    have hrpos : 0 < r := by
      rcases lt_or_eq_of_le hr with h | h
      · exact h
      · exact absurd (by rw [← h]; norm_num) h2
    have hr12 : 0 < r / 100 / 12 := by positivity
    rw [pdiv_ok _ _ (by norm_num : (12 : ℚ) ≠ 0), ok_bind,
      ppow_ok _ _ (by positivity : (0 : ℚ) < 1 + r / 100 / 12).ne', ok_bind,
      pdiv_ok _ _ (one_sub_zpow_neg_pos _ _ hr12 hn').ne']

/-- For a non-negative rate, the exception-aware `inverse_loan_amountE`
succeeds with exactly the value of the total model. -/
theorem inverse_loan_amountE_ok (P r y : ℚ) (hr : 0 ≤ r) :
    inverse_loan_amountE P r y = Except.ok (inverse_loan_amount P r y) := by
  unfold inverse_loan_amountE inverse_loan_amount
  rw [pdiv_ok _ _ (by norm_num : (100 : ℚ) ≠ 0)]
  rw [ok_bind]
  dsimp only
  split_ifs with h1 h2
  · rfl
  · rfl
  · have hrpos : 0 < r := by
      rcases lt_or_eq_of_le hr with h | h
      · exact h
      · exact absurd (by rw [← h]; norm_num) h2
    have hr12 : 0 < r / 100 / 12 := by positivity
    rw [pdiv_ok _ _ (by norm_num : (12 : ℚ) ≠ 0), ok_bind,
      ppow_ok _ _ (by positivity : (0 : ℚ) < 1 + r / 100 / 12).ne', ok_bind,
      pdiv_ok _ _ hr12.ne']

/-- A division guarded by positivity of its own divisor (the price-cap
guard shape) never fails. -/
theorem posDivE_ok (a b : ℚ) :
    posDivE a b = Except.ok (if 0 < b then a / b else 0) := by
  unfold posDivE
  split_ifs with hc
  · exact pdiv_ok a b hc.ne'
  · rfl

/-- A division by a nonzero constant under the qualifying-income guard
(the 28%/36%/39%/44% rule shape) never fails. -/
theorem ruleDivE_ok (t a b : ℚ) (hb : b ≠ 0) :
    ruleDivE t a b = Except.ok (if 0 < t then a / b else 0) := by
  unfold ruleDivE
  split_ifs with hc
  · exact pdiv_ok a b hb
  · rfl

/-- The coverage-ratio branch: divide only when the principal+interest
is positive, otherwise produce the "infinite" sentinel. -/
theorem coverageE_ok (a b : ℚ) :
    coverageE a b = Except.ok (if 0 < b then some (a / b) else none) := by
  unfold coverageE
  split_ifs with hc
  · rw [pdiv_ok _ _ hc.ne']
    rfl
  · rfl

/-- C8.  For every input record with non-negative fields, the whole
metric computation performs no division by zero: the exception-aware
model (which fails exactly where Python would raise
`ZeroDivisionError`) succeeds, returning precisely the metrics of the
total model — the coverage-ratio, 28%/36%, Canada-stress and price-cap
divisions are all guarded. -/
theorem no_division_fault (X : Inputs) (h : X.Nonneg) :
    calculateE X = Except.ok (calculate X) := by
  have hr : 0 ≤ X.rate := h.2.2.2.1
  have hstress : 0 ≤ max (X.rate + 2) 5.25 :=
    le_trans (by norm_num : (0 : ℚ) ≤ 5.25) (le_max_right _ _)
  have h100 : (100 : ℚ) ≠ 0 := by norm_num
  have h12 : (12 : ℚ) ≠ 0 := by norm_num
  unfold calculateE calculate
  simp only [pdiv_ok _ _ h100, pdiv_ok _ _ h12, ok_bind]
  simp only [mortgage_paymentE_ok _ _ _ hr, mortgage_paymentE_ok _ _ _ hstress,
    inverse_loan_amountE_ok _ _ _ hr, ok_bind, coverageE_ok, posDivE_ok,
    ruleDivE_ok _ _ _ (by norm_num : (0.28 : ℚ) ≠ 0),
    ruleDivE_ok _ _ _ (by norm_num : (0.36 : ℚ) ≠ 0),
    ruleDivE_ok _ _ _ (by norm_num : (0.39 : ℚ) ≠ 0),
    ruleDivE_ok _ _ _ (by norm_num : (0.44 : ℚ) ≠ 0), pure_eq_ok]

/-- C8 witness at a degenerate admissible input (100% down, zero rate,
zero rent): all guards fire and the computation still succeeds. -/
theorem no_division_fault_witness :
    calculateE degenerateInputs = Except.ok (calculate degenerateInputs) :=
  no_division_fault degenerateInputs
    (by norm_num [degenerateInputs, Inputs.Nonneg])

/-! ### C9: parsing defaults -/

/-- A blank or non-numeric field parses to its default. -/
theorem parse_money_default (s : String) (d : ℚ) (h : BlankOrNonNumeric s) :
    parse_money (some s) d = d := by
  unfold parse_money
  rcases h with h | h
  · simp [h]
  · by_cases he : pyStrip s = ""
    · simp [he]
    · simp [he, h]

/-- A field whose cleaned text `float()` accepts parses to that value. -/
theorem parse_money_parsed (s : String) (d v : ℚ) (he : pyStrip s ≠ "")
    (hp : pyFloat? (removeMoneyChars (pyStrip s)) = some v) :
    parse_money (some s) d = v := by
  unfold parse_money
  dsimp only
  rw [if_neg he, hp]

/-- C9.  For every record of blank or non-numeric field texts, input
parsing returns exactly the documented defaults (comparison price =
parsed asking price) and never raises; and for every string input,
`parse_money` produces a number — either the parsed value or the
default, never an error. -/
theorem parsing_defaults (T : FieldTexts) (h : T.AllBlankOrNonNumeric) :
    get_inputs T = defaultInputs ∧
    ∀ (s : String) (d : ℚ),
      parse_money (some s) d = d ∨
      ∃ v, pyFloat? (removeMoneyChars (pyStrip s)) = some v ∧
        parse_money (some s) d = v := by
  obtain ⟨h1, h2, h3, h4, h5, h6, h7, h8, h9, h10, h11, h12, h13, h14, h15, h16⟩ := h
  constructor
  · unfold get_inputs defaultInputs
    simp only [parse_money_default _ _ h1, parse_money_default _ _ h2,
      parse_money_default _ _ h3, parse_money_default _ _ h4,
      parse_money_default _ _ h5, parse_money_default _ _ h6,
      parse_money_default _ _ h7, parse_money_default _ _ h8,
      parse_money_default _ _ h9, parse_money_default _ _ h10,
      parse_money_default _ _ h11, parse_money_default _ _ h12,
      parse_money_default _ _ h13, parse_money_default _ _ h14,
      parse_money_default _ _ h15, parse_money_default _ _ h16]
  · intro s d
    by_cases he : pyStrip s = ""
    · left
      exact parse_money_default s d (Or.inl he)
    · cases hp : pyFloat? (removeMoneyChars (pyStrip s)) with
      | none =>
        left
        exact parse_money_default s d (Or.inr hp)
      | some v =>
        right
        exact ⟨v, rfl, parse_money_parsed s d v he hp⟩

/-- C9 witness: blank, alphabetic, punctuation-only and malformed
numeric fields all collapse to the documented default record. -/
theorem parsing_defaults_witness :
    get_inputs ⟨"", "abc", "$%,", "1.2.3", "", "  ", "", "", "", "", "", "",
      "", "", "", ""⟩ = defaultInputs :=
  (parsing_defaults _
    (by unfold FieldTexts.AllBlankOrNonNumeric BlankOrNonNumeric; decide)).1

/-! ### C10: fractional years truncate toward zero -/

/-- C10.  `mortgage_payment` and `inverse_loan_amount` truncate a
fractional `years` argument toward zero, so for `0 < years < 1` both
return `0`. -/
theorem fractional_years_truncation (L r y : ℚ) (h0 : 0 < y) (h1 : y < 1) :
    mortgage_payment L r y = 0 ∧ inverse_loan_amount L r y = 0 := by
  have hfloor : pyInt y = 0 := by
    unfold pyInt
    rw [if_pos h0.le]
    rw [Int.floor_eq_zero_iff]
    exact ⟨h0.le, h1⟩
  constructor
  · unfold mortgage_payment
    rw [hfloor]
    norm_num
  · unfold inverse_loan_amount
    rw [hfloor]
    norm_num

/-- C10 witness at `L = 100000`, `r = 7`, `years = 1/2`. -/
theorem fractional_years_truncation_witness :
    mortgage_payment 100000 7 (1 / 2) = 0 ∧ inverse_loan_amount 100000 7 (1 / 2) = 0 :=
  fractional_years_truncation 100000 7 (1 / 2) (by norm_num) (by norm_num)

end Realtor2
